import Mathlib

/-!
Verification development for the garage-door lambda handler
(`lambda_handler.py`).  The remote HTTP API is modelled by an oracle
(`Env`) giving, for each endpoint, the response to its n-th call.  The
world `W` carries the mutable session fields of `MyQGarageDoor`
(`_security_token`, `_opener_id`, `_opener_state`), one call counter per
endpoint, the ordered trace of remote requests made, and the log lines
emitted.  Python exceptions are modelled by `Except PyExc`; every
operation returns the (possibly mutated) world together with the
outcome, since in the source the instance fields stay mutated and the
network calls stay made even when an exception propagates.  The
recursion between `_login` and the `needs_security_token` wrapper around
`_get_opener` is modelled with a fuel parameter whose exhaustion stands
for Python's `RecursionError` (itself an `Exception`, hence caught by
`wrap_handler`).
-/

namespace DoorLambda

/-- One device record of the device-list response:
`MyQDeviceTypeName`, `MyQDeviceId` and the `Attributes` list of
`(AttributeDisplayName, Value)` pairs. -/
structure Device where
  typeName : String
  deviceId : String
  attributes : List (String × String)
deriving DecidableEq

/-- Response of `POST /api/v4/User/Validate`: an HTTP status and the
optional `SecurityToken` field of the JSON body. -/
structure LoginResp where
  status : Nat
  securityToken : Option String

/-- Response of `GET /api/v4/userdevicedetails/get`: an HTTP status and
the `Devices` list of the JSON body. -/
structure DevResp where
  status : Nat
  devices : List Device

/-- Response of `PUT /api/v4/deviceattribute/putdeviceattribute`. -/
structure PutResp where
  status : Nat

/-- Oracle for the remote API: the response to the n-th call of each
endpoint. -/
structure Env where
  loginResp : Nat → LoginResp
  devResp : Nat → DevResp
  putResp : Nat → PutResp

/-- The mutable instance fields of `MyQGarageDoor`. -/
structure DoorSt where
  securityToken : Option String
  openerId : Option String
  openerState : Option String
deriving DecidableEq

/-- A remote request, as recorded in the trace. -/
inductive Req where
  | login
  | deviceList
  | putAttr (value : Nat)
deriving DecidableEq

/-- World: session fields, next oracle index per endpoint, the trace of
remote requests made, and the log lines emitted. -/
structure W where
  door : DoorSt
  nLogin : Nat
  nDev : Nat
  nPut : Nat
  calls : List Req
  logs : List String
deriving DecidableEq

/-- Python exceptions relevant to the source: `requests.HTTPError`
(from `raise_for_status`), `AssertionError` (the opener assert),
`KeyError` (missing event field), a configuration/secret-retrieval
failure, and `RecursionError` (fuel exhaustion of the
login/discovery recursion). -/
inductive PyExc where
  | httpError (status : Nat)
  | assertionError
  | keyError
  | configError
  | recursionError
deriving DecidableEq

/-- `response.raise_for_status()` raises exactly for 4xx/5xx statuses. -/
def errStatus (s : Nat) : Bool :=
  decide (400 ≤ s) && decide (s < 600)

def logKeyNotFound : String := "Key not found"
def logUnknownState : String := "Could not determine door state. Closing door"
def logWrongDay : String := "CLEANER: Cleaner code executed on wrong day!"
def logCleanerOpened : String := "CLEANER: Cleaner opened the door"
def logCleanerBadTime : String := "CLEANER: BAD TIME: Cleaner code used; Open forbidden"
def logFamilyUsed : String := "FAMILY: Family code used"
def logBadCode : String := "BAD CODE: Code was used -- forbidden!"
def logInternal : String := "Something went wrong!"

/-- The inner attribute loop of `_get_opener`: each `doorstate`
attribute overwrites `_opener_state`. -/
def scanAttrs (attrs : List (String × String)) (st : DoorSt) : DoorSt :=
  attrs.foldl
    (fun st a => if a.1 = "doorstate" then { st with openerState := some a.2 } else st)
    st

/-- The device loop of `_get_opener`: each `GarageDoorOpener` device
overwrites `_opener_id` and then runs the attribute loop (there is no
`break` in the source). -/
def scanDevices (ds : List Device) (st : DoorSt) : DoorSt :=
  ds.foldl
    (fun st d =>
      if d.typeName = "GarageDoorOpener" then
        scanAttrs d.attributes { st with openerId := some d.deviceId }
      else st)
    st

/-- Body of `_get_opener` (undecorated): GET the device list,
`raise_for_status`, run the device loop, then
`assert self._opener_id is not None`. -/
def getOpenerRaw (env : Env) (w : W) : W × Except PyExc Unit :=
  let r := env.devResp w.nDev
  let w1 : W := { w with nDev := w.nDev + 1, calls := w.calls ++ [Req.deviceList] }
  if errStatus r.status then (w1, Except.error (PyExc.httpError r.status))
  else
    let w2 : W := { w1 with door := scanDevices r.devices w1.door }
    if w2.door.openerId = none then (w2, Except.error PyExc.assertionError)
    else (w2, Except.ok ())

mutual

/-- `_login`: POST credentials, `raise_for_status`; store the
`SecurityToken` field, or log a `KeyError` when the field is missing
(the token field is left unchanged in that case); then call the
decorated `_get_opener`. -/
def loginGo (env : Env) : Nat → W → W × Except PyExc Unit
  | 0, w => (w, Except.error PyExc.recursionError)
  | Nat.succ fuel, w =>
    let r := env.loginResp w.nLogin
    let w1 : W := { w with nLogin := w.nLogin + 1, calls := w.calls ++ [Req.login] }
    if errStatus r.status then (w1, Except.error (PyExc.httpError r.status))
    else
      match r.securityToken with
      | some t =>
        getOpenerW env fuel { w1 with door := { w1.door with securityToken := some t } }
      | none =>
        getOpenerW env fuel { w1 with logs := w1.logs ++ [logKeyNotFound] }

/-- The decorated `_get_opener`: the `needs_security_token` wrapper
(login when no token is held; run the body; on `requests.HTTPError`
login again and run the body once more) applied to `getOpenerRaw`. -/
def getOpenerW (env : Env) : Nat → W → W × Except PyExc Unit
  | 0, w => (w, Except.error PyExc.recursionError)
  | Nat.succ fuel, w =>
    match (if w.door.securityToken = none then loginGo env fuel w else (w, Except.ok ())) with
    | (w1, Except.error e) => (w1, Except.error e)
    | (w1, Except.ok _) =>
      match getOpenerRaw env w1 with
      | (w2, Except.ok _) => (w2, Except.ok ())
      | (w2, Except.error (PyExc.httpError _)) =>
        match loginGo env fuel w2 with
        | (w3, Except.error e) => (w3, Except.error e)
        | (w3, Except.ok _) => getOpenerRaw env w3
      | (w2, Except.error e) => (w2, Except.error e)

end

/-- Body of `_set_door_state` (undecorated): PUT the
`desireddoorstate` attribute with the numeric target, then
`raise_for_status`. -/
def setDoorStateRaw (env : Env) (value : Nat) (w : W) : W × Except PyExc Unit :=
  let r := env.putResp w.nPut
  let w1 : W := { w with nPut := w.nPut + 1, calls := w.calls ++ [Req.putAttr value] }
  if errStatus r.status then (w1, Except.error (PyExc.httpError r.status))
  else (w1, Except.ok ())

/-- The decorated `_set_door_state`: the `needs_security_token`
wrapper applied to `setDoorStateRaw`. -/
def setDoorStateW (env : Env) (value : Nat) : Nat → W → W × Except PyExc Unit
  | 0, w => (w, Except.error PyExc.recursionError)
  | Nat.succ fuel, w =>
    match (if w.door.securityToken = none then loginGo env fuel w else (w, Except.ok ())) with
    | (w1, Except.error e) => (w1, Except.error e)
    | (w1, Except.ok _) =>
      match setDoorStateRaw env value w1 with
      | (w2, Except.ok _) => (w2, Except.ok ())
      | (w2, Except.error (PyExc.httpError _)) =>
        match loginGo env fuel w2 with
        | (w3, Except.error e) => (w3, Except.error e)
        | (w3, Except.ok _) => setDoorStateRaw env value w3
      | (w2, Except.error e) => (w2, Except.error e)

/-- `DOORSTATE_MAP.get(self._opener_state, 'Unknown')`. -/
def doorStateName : Option String → String
  | some s =>
    if s = "1" then "Open"
    else if s = "2" then "Closed"
    else if s = "4" then "Opening"
    else if s = "5" then "Closing"
    else "Unknown"
  | none => "Unknown"

/-- `check_door_state`: call the decorated `_get_opener`, then map the
raw state code. -/
def check_door_state (env : Env) (fuel : Nat) (w : W) : W × Except PyExc String :=
  match getOpenerW env fuel w with
  | (w1, Except.ok _) => (w1, Except.ok (doorStateName w1.door.openerState))
  | (w1, Except.error e) => (w1, Except.error e)

/-- `open_door`: `_set_door_state(1)`. -/
def open_door (env : Env) (fuel : Nat) (w : W) : W × Except PyExc Unit :=
  setDoorStateW env 1 fuel w

/-- `close_door`: `_set_door_state(0)`. -/
def close_door (env : Env) (fuel : Nat) (w : W) : W × Except PyExc Unit :=
  setDoorStateW env 0 fuel w

/-- `toggle_door`: check the state; close when `Open`/`Opening`, open
when `Closed`/`Closing`, otherwise warn and close. -/
def toggle_door (env : Env) (fuel : Nat) (w : W) : W × Except PyExc Unit :=
  match check_door_state env fuel w with
  | (w1, Except.error e) => (w1, Except.error e)
  | (w1, Except.ok state) =>
    if state = "Open" ∨ state = "Opening" then close_door env fuel w1
    else if state = "Closed" ∨ state = "Closing" then open_door env fuel w1
    else close_door env fuel { w1 with logs := w1.logs ++ [logUnknownState] }

/-- The five decrypted configuration secrets. -/
structure Config where
  account : String
  password : String
  cleanerCode : String
  familyCode : String
  cleanerDay : String
deriving DecidableEq

def EARLIEST_ALLOWED : Int := 7
def LATEST_ALLOWED : Int := 17

/-- `event['body-json'][len('code='):]`: drop the first five characters
of the body, whatever they are. -/
def extractCode (body : String) : String :=
  String.mk (body.data.drop 5)

/-- Fresh world: a `MyQGarageDoor` as built by `__init__`, with no
remote call made yet. -/
def initW : W :=
  { door := { securityToken := none, openerId := none, openerState := none },
    nLogin := 0, nDev := 0, nPut := 0, calls := [], logs := [] }

/-- The undecorated `handler` body.  `cfg = none` models a failing
secret retrieval, `body = none` a missing `body-json` field; `hour` is
`datetime.datetime.now().hour` (UTC) and `weekdayName` is
`now.strftime('%A')`. -/
def handlerInner (cfg : Option Config) (body : Option String) (hour : Nat)
    (weekdayName : String) (env : Env) (fuel : Nat) : W × Except PyExc String :=
  match cfg with
  | none => (initW, Except.error PyExc.configError)
  | some c =>
    match body with
    | none => (initW, Except.error PyExc.keyError)
    | some b =>
      let esthour : Int := (hour : Int) - 5
      let code := extractCode b
      let w := initW
      if code = c.cleanerCode then
        if weekdayName ≠ c.cleanerDay then
          ({ w with logs := w.logs ++ [logWrongDay] },
           Except.ok "THIS CODE IS NOT ACTIVE TODAY. Event has been logged.")
        else if EARLIEST_ALLOWED < esthour ∧ esthour < LATEST_ALLOWED then
          match toggle_door env fuel w with
          | (w1, Except.error e) => (w1, Except.error e)
          | (w1, Except.ok _) =>
            ({ w1 with logs := w1.logs ++ [logCleanerOpened] }, Except.ok "OK")
        else
          match check_door_state env fuel w with
          | (w1, Except.error e) => (w1, Except.error e)
          | (w1, Except.ok _) =>
            match close_door env fuel w1 with
            | (w2, Except.error e) => (w2, Except.error e)
            | (w2, Except.ok _) =>
              ({ w2 with logs := w2.logs ++ [logCleanerBadTime] }, Except.ok "OK")
      else if code = c.familyCode then
        match check_door_state env fuel w with
        | (w1, Except.error e) => (w1, Except.error e)
        | (w1, Except.ok _) =>
          match toggle_door env fuel w1 with
          | (w2, Except.error e) => (w2, Except.error e)
          | (w2, Except.ok _) =>
            ({ w2 with logs := w2.logs ++ [logFamilyUsed] }, Except.ok "OK")
      else
        ({ w with logs := w.logs ++ [logBadCode] }, Except.ok "BAD CODE!")

/-- `wrap_handler` applied to the handler body: any exception is
logged and converted to the fixed `'Internal error'` response. -/
def handler (cfg : Option Config) (body : Option String) (hour : Nat)
    (weekdayName : String) (env : Env) (fuel : Nat) : W × String :=
  match handlerInner cfg body hour weekdayName env fuel with
  | (w, Except.ok s) => (w, s)
  | (w, Except.error _) => ({ w with logs := w.logs ++ [logInternal] }, "Internal error")

/-! Specification-side functions for the amended discovery claim and
the toggle table. -/

/-- The id of the last `GarageDoorOpener` in a device list, if any. -/
def lastOpenerId : List Device → Option String
  | [] => none
  | d :: rest =>
    match lastOpenerId rest with
    | some i => some i
    | none => if d.typeName = "GarageDoorOpener" then some d.deviceId else none

/-- The value of the last `doorstate` attribute of a device, if any. -/
def lastDoorStateAttr : List (String × String) → Option String
  | [] => none
  | a :: rest =>
    match lastDoorStateAttr rest with
    | some v => some v
    | none => if a.1 = "doorstate" then some a.2 else none

/-- The door-state code written last by the device loop: the last
`doorstate` attribute of the last `GarageDoorOpener` carrying one. -/
def lastOpenerDoorState : List Device → Option String
  | [] => none
  | d :: rest =>
    match lastOpenerDoorState rest with
    | some v => some v
    | none =>
      if d.typeName = "GarageDoorOpener" then lastDoorStateAttr d.attributes else none

/-- Modelled from the spec toggle table: close (`0`) on
`Open`/`Opening`, open (`1`) on `Closed`/`Closing`, close on anything
else. -/
def specToggleTarget (s : String) : Nat :=
  if s = "Open" ∨ s = "Opening" then 0
  else if s = "Closed" ∨ s = "Closing" then 1
  else 0

/-! Concrete environments and worlds used by counterexamples and
witnesses. -/

/-- A single garage-door opener device with door-state code `2`
(`Closed`). -/
def dev1 : Device := ⟨"GarageDoorOpener", "opener1", [("doorstate", "2")]⟩

/-- A world holding a security token, as after a previous successful
login. -/
def wTok : W :=
  { initW with door := { securityToken := some "t0", openerId := none, openerState := none } }

/-- Environment where the first put and the first device-list call are
rejected as unauthorized (401) and every later call succeeds. -/
def envC1 : Env :=
  { loginResp := fun _ => ⟨200, some "tok"⟩,
    devResp := fun n => if n = 0 then ⟨401, []⟩ else ⟨200, [dev1]⟩,
    putResp := fun n => if n = 0 then ⟨401⟩ else ⟨200⟩ }

/-- Environment whose authentication endpoint answers with success but
without a `SecurityToken` field, and whose other endpoints succeed. -/
def envC2 : Env :=
  { loginResp := fun _ => ⟨200, none⟩,
    devResp := fun _ => ⟨200, [dev1]⟩,
    putResp := fun _ => ⟨200⟩ }

/-- Environment where the first put fails with a plain server error
(500, not an authorization failure) and everything else succeeds. -/
def envC3 : Env :=
  { loginResp := fun _ => ⟨200, some "tok"⟩,
    devResp := fun _ => ⟨200, [dev1]⟩,
    putResp := fun n => if n = 0 then ⟨500⟩ else ⟨200⟩ }

/-- Environment whose device list holds two `GarageDoorOpener`
devices: first id `A` with door state `1`, then id `B` with door
state `2`. -/
def envC4 : Env :=
  { loginResp := fun _ => ⟨200, some "tok"⟩,
    devResp := fun _ =>
      ⟨200, [⟨"GarageDoorOpener", "A", [("doorstate", "1")]⟩,
             ⟨"GarageDoorOpener", "B", [("doorstate", "2")]⟩]⟩,
    putResp := fun _ => ⟨200⟩ }

/-- Environment where every remote call succeeds. -/
def envOk : Env :=
  { loginResp := fun _ => ⟨200, some "tok"⟩,
    devResp := fun _ => ⟨200, [dev1]⟩,
    putResp := fun _ => ⟨200⟩ }

/-- Environment where every put fails with a 500 server error. -/
def envFail : Env :=
  { loginResp := fun _ => ⟨200, some "tok"⟩,
    devResp := fun _ => ⟨200, [dev1]⟩,
    putResp := fun _ => ⟨500⟩ }

/-- A concrete configuration for witnesses. -/
def cfgW : Config := ⟨"acct", "pw", "clean", "fam", "Thursday"⟩

/-- The world after a successful device discovery from `wTok` under
`envOk`. -/
def w1W : W :=
  { door := { securityToken := some "t0", openerId := some "opener1", openerState := some "2" },
    nLogin := 0, nDev := 1, nPut := 0, calls := [Req.deviceList], logs := [] }

/-! Helper lemmas. -/

theorem getOpenerRaw_nPut (env : Env) (w : W) : (getOpenerRaw env w).1.nPut = w.nPut := by
  unfold getOpenerRaw
  dsimp only
  split
  · rfl
  · split <;> rfl

theorem nPut_preserved (env : Env) :
    ∀ fuel : Nat, (∀ w : W, (loginGo env fuel w).1.nPut = w.nPut) ∧
      (∀ w : W, (getOpenerW env fuel w).1.nPut = w.nPut) := by
  intro fuel
  induction fuel with
  | zero => exact ⟨fun _ => rfl, fun _ => rfl⟩
  | succ n ih =>
    obtain ⟨ihL, ihG⟩ := ih
    have hRawStep : ∀ w0 : W,
        (match getOpenerRaw env w0 with
          | (w2, Except.ok _) => (w2, Except.ok ())
          | (w2, Except.error (PyExc.httpError _)) =>
            match loginGo env n w2 with
            | (w3, Except.error e) => (w3, Except.error e)
            | (w3, Except.ok _) => getOpenerRaw env w3
          | (w2, Except.error e) => (w2, Except.error e)).1.nPut = w0.nPut := by
      intro w0
      rcases hR : getOpenerRaw env w0 with ⟨w2, r2⟩
      have h2 : w2.nPut = w0.nPut := by
        have := getOpenerRaw_nPut env w0; rw [hR] at this; exact this
      cases r2 with
      | ok v => exact h2
      | error e =>
        cases e with
        | httpError s =>
          dsimp only
          rcases hL2 : loginGo env n w2 with ⟨w3, r3⟩
          have h3 : w3.nPut = w2.nPut := by
            have := ihL w2; rw [hL2] at this; exact this
          cases r3 with
          | error e2 => simp [h3, h2]
          | ok v =>
            have h4 := getOpenerRaw_nPut env w3
            simp [h4, h3, h2]
        | assertionError => simp [h2]
        | keyError => simp [h2]
        | configError => simp [h2]
        | recursionError => simp [h2]
    constructor
    · intro w
      simp only [loginGo]
      split
      · rfl
      · split <;> simp [ihG]
    · intro w
      simp only [getOpenerW]
      by_cases h : w.door.securityToken = none
      · rw [if_pos h]
        rcases hL : loginGo env n w with ⟨w1, r1⟩
        have h1 : w1.nPut = w.nPut := by
          have := ihL w; rw [hL] at this; exact this
        cases r1 with
        | error e => exact h1
        | ok u => rw [hRawStep w1]; exact h1
      · rw [if_neg h]
        exact hRawStep w

theorem setDoorStateRaw_nPut2 (env : Env) (v : Nat) (w : W) :
    (setDoorStateRaw env v w).1.nPut = w.nPut + 1 := by
  unfold setDoorStateRaw; dsimp only; split <;> rfl

theorem setDoorStateRaw_err (env : Env) (v : Nat) (w : W)
    (h : errStatus (env.putResp w.nPut).status = true) :
    (setDoorStateRaw env v w).2 =
      Except.error (PyExc.httpError (env.putResp w.nPut).status) := by
  unfold setDoorStateRaw; dsimp only; rw [if_pos h]

theorem setDoorStateW_ok (env : Env) (v n : Nat) (w : W)
    (htok : ¬ w.door.securityToken = none)
    (hput : errStatus (env.putResp w.nPut).status = false) :
    setDoorStateW env v (n + 1) w =
      ({ w with nPut := w.nPut + 1, calls := w.calls ++ [Req.putAttr v] },
       Except.ok ()) := by
  simp only [setDoorStateW]
  rw [if_neg htok]
  dsimp only
  unfold setDoorStateRaw
  dsimp only
  rw [if_neg (by simp [hput])]

/-! Claim theorems, counterexamples and witnesses. -/

/-- C1, counterexample: with a held token, a `setState` whose first
attempt fails 401 triggers a re-login, inside which device discovery
fails 401 as well, so a second login runs — the whole operation then
succeeds having performed two logins, not at most one. -/
theorem setState_two_logins_counterexample :
    (setDoorStateW envC1 0 10 wTok).2 = Except.ok () ∧
    (setDoorStateW envC1 0 10 wTok).1.calls =
      [Req.putAttr 0, Req.login, Req.deviceList, Req.login,
       Req.deviceList, Req.deviceList, Req.putAttr 0] ∧
    (setDoorStateW envC1 0 10 wTok).1.nLogin = 2 := by
  refine ⟨rfl, rfl, rfl⟩

/-- C1, amended: at the wrapper level the retry of `setState` is
bounded — one wrapped call performs at most two put requests, and when
the two consulted put responses both fail the operation ends in an
error; additional logins can only come from the discovery nested
inside `login()`. -/
theorem setState_bounded_retry (env : Env) (value fuel : Nat) (w : W) :
    (setDoorStateW env value fuel w).1.nPut ≤ w.nPut + 2 ∧
    (errStatus (env.putResp w.nPut).status = true →
     errStatus (env.putResp (w.nPut + 1)).status = true →
     ∃ e, (setDoorStateW env value fuel w).2 = Except.error e) := by
  cases fuel with
  | zero => exact ⟨Nat.le_add_right _ _, fun _ _ => ⟨PyExc.recursionError, rfl⟩⟩
  | succ n =>
    obtain ⟨ihL, ihG⟩ := nPut_preserved env n
    have hRaw : ∀ w1 : W, w1.nPut = w.nPut →
        ((match setDoorStateRaw env value w1 with
          | (w2, Except.ok _) => (w2, Except.ok ())
          | (w2, Except.error (PyExc.httpError _)) =>
            match loginGo env n w2 with
            | (w3, Except.error e) => (w3, Except.error e)
            | (w3, Except.ok _) => setDoorStateRaw env value w3
          | (w2, Except.error e) => (w2, Except.error e)).1.nPut ≤ w.nPut + 2) ∧
        (errStatus (env.putResp w.nPut).status = true →
         errStatus (env.putResp (w.nPut + 1)).status = true →
         ∃ e, (match setDoorStateRaw env value w1 with
          | (w2, Except.ok _) => (w2, Except.ok ())
          | (w2, Except.error (PyExc.httpError _)) =>
            match loginGo env n w2 with
            | (w3, Except.error e) => (w3, Except.error e)
            | (w3, Except.ok _) => setDoorStateRaw env value w3
          | (w2, Except.error e) => (w2, Except.error e)).2 = Except.error e) := by
      intro w1 h1
      rcases hR : setDoorStateRaw env value w1 with ⟨w2, r2⟩
      have h2 : w2.nPut = w1.nPut + 1 := by
        have := setDoorStateRaw_nPut2 env value w1; rw [hR] at this; exact this
      cases r2 with
      | ok u =>
        dsimp only
        refine ⟨by omega, fun hs1 _ => ?_⟩
        have herr := setDoorStateRaw_err env value w1 (by rw [h1]; exact hs1)
        rw [hR] at herr
        exact absurd herr (by simp)
      | error e =>
        cases e with
        | httpError s =>
          dsimp only
          rcases hL2 : loginGo env n w2 with ⟨w3, r3⟩
          have h3 : w3.nPut = w2.nPut := by
            have := ihL w2; rw [hL2] at this; exact this
          cases r3 with
          | error e2 => exact ⟨by dsimp only; omega, fun _ _ => ⟨e2, rfl⟩⟩
          | ok v =>
            have h4 := setDoorStateRaw_nPut2 env value w3
            refine ⟨by dsimp only; omega, fun _ hs2 => ?_⟩
            have herr := setDoorStateRaw_err env value w3
              (by rw [show w3.nPut = w.nPut + 1 by omega]; exact hs2)
            exact ⟨_, herr⟩
        | assertionError => exact ⟨by dsimp only; omega, fun _ _ => ⟨PyExc.assertionError, rfl⟩⟩
        | keyError => exact ⟨by dsimp only; omega, fun _ _ => ⟨PyExc.keyError, rfl⟩⟩
        | configError => exact ⟨by dsimp only; omega, fun _ _ => ⟨PyExc.configError, rfl⟩⟩
        | recursionError => exact ⟨by dsimp only; omega, fun _ _ => ⟨PyExc.recursionError, rfl⟩⟩
    simp only [setDoorStateW]
    by_cases h : w.door.securityToken = none
    · rw [if_pos h]
      rcases hL : loginGo env n w with ⟨w1, r1⟩
      have h1 : w1.nPut = w.nPut := by
        have := ihL w; rw [hL] at this; exact this
      cases r1 with
      | error e => exact ⟨by dsimp only; omega, fun _ _ => ⟨e, rfl⟩⟩
      | ok u => exact hRaw w1 h1
    · rw [if_neg h]
      exact hRaw w rfl

/-- C1, witness for the amended theorem at a concrete input: under
`envFail` both consulted put responses fail, so the operation ends in
an error. -/
theorem setState_bounded_retry_witness :
    errStatus (envFail.putResp wTok.nPut).status = true ∧
    (∃ e, (setDoorStateW envFail 0 5 wTok).2 = Except.error e) :=
  ⟨by decide,
   (setState_bounded_retry envFail 0 5 wTok).2 (by decide) (by decide)⟩

/-- C2, counterexample: a login whose response lacks the
`SecurityToken` field does not fail — it logs the missing key and
completes successfully through device discovery. -/
theorem login_missing_token_counterexample :
    (loginGo envC2 5 wTok).2 = Except.ok () ∧
    logKeyNotFound ∈ (loginGo envC2 5 wTok).1.logs := by
  refine ⟨rfl, by decide⟩

/-- C2, amended: `login()` fails with an HTTP error exactly when the
authentication endpoint returns a non-success status; when the
response lacks the `SecurityToken` field, the missing key is logged
and login continues into device discovery with the token field left
unchanged, instead of failing. -/
theorem login_error_behavior (env : Env) (fuel : Nat) (w : W) :
    (errStatus (env.loginResp w.nLogin).status = true →
      loginGo env (fuel + 1) w =
        ({ w with nLogin := w.nLogin + 1, calls := w.calls ++ [Req.login] },
         Except.error (PyExc.httpError (env.loginResp w.nLogin).status))) ∧
    ((env.loginResp w.nLogin).securityToken = none →
     errStatus (env.loginResp w.nLogin).status = false →
      loginGo env (fuel + 1) w =
        getOpenerW env fuel
          { w with nLogin := w.nLogin + 1, calls := w.calls ++ [Req.login],
                   logs := w.logs ++ [logKeyNotFound] } ∧
      logKeyNotFound ∈
        ({ w with nLogin := w.nLogin + 1, calls := w.calls ++ [Req.login],
                  logs := w.logs ++ [logKeyNotFound] } : W).logs) := by
  constructor
  · intro h
    simp only [loginGo]
    rw [if_pos h]
  · intro hm hs
    constructor
    · simp only [loginGo]
      rw [if_neg (by simp [hs]), hm]
    · simp

/-- C2, witness for the amended theorem at a concrete input: under
`envC2` the login response carries no token; login proceeds to
discovery with the missing key logged. -/
theorem login_error_behavior_witness :
    loginGo envC2 5 wTok =
      getOpenerW envC2 4
        { wTok with nLogin := wTok.nLogin + 1, calls := wTok.calls ++ [Req.login],
                    logs := wTok.logs ++ [logKeyNotFound] } ∧
    logKeyNotFound ∈
      ({ wTok with nLogin := wTok.nLogin + 1, calls := wTok.calls ++ [Req.login],
                   logs := wTok.logs ++ [logKeyNotFound] } : W).logs :=
  (login_error_behavior envC2 4 wTok).2 rfl rfl

/-- C3, counterexample: a non-authorization failure (HTTP 500) of the
state-changing call is retried after a re-login: the put request is
issued twice and the operation succeeds instead of propagating the
error. -/
theorem setState_nonauth_retried_counterexample :
    (setDoorStateW envC3 0 10 wTok).2 = Except.ok () ∧
    (setDoorStateW envC3 0 10 wTok).1.calls =
      [Req.putAttr 0, Req.login, Req.deviceList, Req.putAttr 0] := by
  refine ⟨rfl, rfl⟩

/-- C3, amended: every `requests.HTTPError` from the state-changing
call — authorization failure or not — triggers the single
re-login-and-retry of the wrapper, so a non-success command response
is not fatal on first occurrence; only a failure of the retried call
(or of the re-login) propagates. -/
theorem setState_http_retry_unfold (env : Env) (value fuel : Nat) (w : W)
    (htok : ¬ w.door.securityToken = none)
    (herr : errStatus (env.putResp w.nPut).status = true) :
    setDoorStateW env value (fuel + 1) w =
      (match loginGo env fuel
          { w with nPut := w.nPut + 1, calls := w.calls ++ [Req.putAttr value] } with
       | (w3, Except.error e) => (w3, Except.error e)
       | (w3, Except.ok _) => setDoorStateRaw env value w3) := by
  simp only [setDoorStateW]
  rw [if_neg htok]
  dsimp only
  have hr : setDoorStateRaw env value w =
      ({ w with nPut := w.nPut + 1, calls := w.calls ++ [Req.putAttr value] },
       Except.error (PyExc.httpError (env.putResp w.nPut).status)) := by
    unfold setDoorStateRaw; dsimp only; rw [if_pos herr]
  rw [hr]

/-- C3, witness for the amended theorem at a concrete input: under
`envC3` the first put fails with a 500 and the wrapper re-logs-in and
retries. -/
theorem setState_http_retry_unfold_witness :
    errStatus (envC3.putResp wTok.nPut).status = true ∧
    setDoorStateW envC3 0 5 wTok =
      (match loginGo envC3 4
          { wTok with nPut := wTok.nPut + 1, calls := wTok.calls ++ [Req.putAttr 0] } with
       | (w3, Except.error e) => (w3, Except.error e)
       | (w3, Except.ok _) => setDoorStateRaw envC3 0 w3) :=
  ⟨by decide, setState_http_retry_unfold envC3 0 4 wTok (by decide) (by decide)⟩

theorem scanAttrs_openerId (attrs : List (String × String)) (st : DoorSt) :
    (scanAttrs attrs st).openerId = st.openerId := by
  induction attrs generalizing st with
  | nil => rfl
  | cons a rest ih =>
    show (scanAttrs rest
      (if a.1 = "doorstate" then { st with openerState := some a.2 } else st)).openerId =
      st.openerId
    rw [ih]
    split <;> rfl

theorem scanAttrs_state (attrs : List (String × String)) (st : DoorSt) :
    (scanAttrs attrs st).openerState =
      (match lastDoorStateAttr attrs with
       | some v => some v
       | none => st.openerState) := by
  induction attrs generalizing st with
  | nil => rfl
  | cons a rest ih =>
    show (scanAttrs rest
      (if a.1 = "doorstate" then { st with openerState := some a.2 } else st)).openerState = _
    rw [ih]
    simp only [lastDoorStateAttr]
    rcases h : lastDoorStateAttr rest with _ | v
    · by_cases ha : a.1 = "doorstate"
      · rw [if_pos ha, if_pos ha]
      · rw [if_neg ha, if_neg ha]
    · rfl

theorem scanDevices_openerId (ds : List Device) (st : DoorSt) :
    (scanDevices ds st).openerId =
      (match lastOpenerId ds with
       | some i => some i
       | none => st.openerId) := by
  induction ds generalizing st with
  | nil => rfl
  | cons d rest ih =>
    show (scanDevices rest
      (if d.typeName = "GarageDoorOpener" then
        scanAttrs d.attributes { st with openerId := some d.deviceId }
      else st)).openerId = _
    rw [ih]
    simp only [lastOpenerId]
    rcases h : lastOpenerId rest with _ | i
    · by_cases hd : d.typeName = "GarageDoorOpener"
      · rw [if_pos hd, if_pos hd, scanAttrs_openerId]
      · rw [if_neg hd, if_neg hd]
    · rfl

theorem scanDevices_state (ds : List Device) (st : DoorSt) :
    (scanDevices ds st).openerState =
      (match lastOpenerDoorState ds with
       | some v => some v
       | none => st.openerState) := by
  induction ds generalizing st with
  | nil => rfl
  | cons d rest ih =>
    show (scanDevices rest
      (if d.typeName = "GarageDoorOpener" then
        scanAttrs d.attributes { st with openerId := some d.deviceId }
      else st)).openerState = _
    rw [ih]
    simp only [lastOpenerDoorState]
    rcases h : lastOpenerDoorState rest with _ | v
    · by_cases hd : d.typeName = "GarageDoorOpener"
      · rw [if_pos hd, if_pos hd, scanAttrs_state]
      · rw [if_neg hd, if_neg hd]
    · rfl

/-- C4, counterexample: with two `GarageDoorOpener` devices in the
list, discovery records the id and door state of the last one (`B`,
state `2`), not of the first one (`A`, state `1`). -/
theorem discovery_first_device_counterexample :
    (getOpenerW envC4 5 wTok).1.door.openerId = some "B" ∧
    (getOpenerW envC4 5 wTok).1.door.openerState = some "2" ∧
    (some "B" : Option String) ≠ some "A" ∧
    (some "2" : Option String) ≠ some "1" := by
  refine ⟨rfl, rfl, by decide, by decide⟩

/-- C4, amended: on a successful device-list response the discovery
body records the id of the last `GarageDoorOpener` in the list and the
last `doorstate` attribute written by the loop, each field keeping its
previous value when no device or attribute matches. -/
theorem discovery_selects_last_opener (env : Env) (w : W)
    (hok : errStatus (env.devResp w.nDev).status = false) :
    (getOpenerRaw env w).1.door.openerId =
      (match lastOpenerId (env.devResp w.nDev).devices with
       | some i => some i
       | none => w.door.openerId) ∧
    (getOpenerRaw env w).1.door.openerState =
      (match lastOpenerDoorState (env.devResp w.nDev).devices with
       | some v => some v
       | none => w.door.openerState) := by
  unfold getOpenerRaw
  dsimp only
  rw [if_neg (by simp [hok])]
  split
  · exact ⟨scanDevices_openerId _ _, scanDevices_state _ _⟩
  · exact ⟨scanDevices_openerId _ _, scanDevices_state _ _⟩

/-- C4, witness for the amended theorem at a concrete input: under
`envC4` the recorded id and state are those given by the last-opener
functions. -/
theorem discovery_selects_last_opener_witness :
    (getOpenerRaw envC4 wTok).1.door.openerId =
      (match lastOpenerId (envC4.devResp wTok.nDev).devices with
       | some i => some i
       | none => wTok.door.openerId) ∧
    (getOpenerRaw envC4 wTok).1.door.openerState =
      (match lastOpenerDoorState (envC4.devResp wTok.nDev).devices with
       | some v => some v
       | none => wTok.door.openerState) :=
  discovery_selects_last_opener envC4 wTok (by decide)

/-- C5: for the cleaner code on the configured weekday, the handler
invokes `toggle_door` when the EST hour lies strictly between the
allowed bounds, and otherwise — boundary hours included — invokes
`check_door_state` followed by an unconditional `close_door`. -/
theorem cleaner_time_window (c : Config) (b : String) (hour : Nat) (env : Env) (fuel : Nat)
    (hcode : extractCode b = c.cleanerCode) :
    ((EARLIEST_ALLOWED < (hour : Int) - 5 ∧ (hour : Int) - 5 < LATEST_ALLOWED) →
      handlerInner (some c) (some b) hour c.cleanerDay env fuel =
        (match toggle_door env fuel initW with
         | (w1, Except.error e) => (w1, Except.error e)
         | (w1, Except.ok _) =>
           ({ w1 with logs := w1.logs ++ [logCleanerOpened] }, Except.ok "OK"))) ∧
    (¬(EARLIEST_ALLOWED < (hour : Int) - 5 ∧ (hour : Int) - 5 < LATEST_ALLOWED) →
      handlerInner (some c) (some b) hour c.cleanerDay env fuel =
        (match check_door_state env fuel initW with
         | (w1, Except.error e) => (w1, Except.error e)
         | (w1, Except.ok _) =>
           match close_door env fuel w1 with
           | (w2, Except.error e) => (w2, Except.error e)
           | (w2, Except.ok _) =>
             ({ w2 with logs := w2.logs ++ [logCleanerBadTime] }, Except.ok "OK"))) := by
  constructor <;> intro h <;>
    simp only [handlerInner] <;>
    rw [if_pos hcode, if_neg (show ¬(c.cleanerDay ≠ c.cleanerDay) from not_not_intro rfl)]
  · rw [if_pos h]
  · rw [if_neg h]

/-- C5, witness at a concrete input inside the window: hour 13 UTC is
8 EST, strictly between 7 and 17, so the toggle branch is taken. -/
theorem cleaner_time_window_witness :
    (EARLIEST_ALLOWED < ((13 : Nat) : Int) - 5 ∧ ((13 : Nat) : Int) - 5 < LATEST_ALLOWED) ∧
    handlerInner (some cfgW) (some "code=clean") 13 cfgW.cleanerDay envOk 5 =
      (match toggle_door envOk 5 initW with
       | (w1, Except.error e) => (w1, Except.error e)
       | (w1, Except.ok _) =>
         ({ w1 with logs := w1.logs ++ [logCleanerOpened] }, Except.ok "OK")) :=
  ⟨by decide, (cleaner_time_window cfgW "code=clean" 13 envOk 5 (by decide)).1 (by decide)⟩

/-- C6: a submitted code matching neither configured code yields the
`BAD CODE!` response with an untouched world: no remote request of any
kind is recorded and every endpoint counter stays zero. -/
theorem bad_code_no_remote_calls (c : Config) (b : String) (hour : Nat) (wd : String)
    (env : Env) (fuel : Nat)
    (h1 : extractCode b ≠ c.cleanerCode) (h2 : extractCode b ≠ c.familyCode) :
    handlerInner (some c) (some b) hour wd env fuel =
      ({ initW with logs := [logBadCode] }, Except.ok "BAD CODE!") ∧
    (handlerInner (some c) (some b) hour wd env fuel).1.calls = [] ∧
    (handlerInner (some c) (some b) hour wd env fuel).1.nLogin = 0 ∧
    (handlerInner (some c) (some b) hour wd env fuel).1.nDev = 0 ∧
    (handlerInner (some c) (some b) hour wd env fuel).1.nPut = 0 := by
  have key : handlerInner (some c) (some b) hour wd env fuel =
      ({ initW with logs := [logBadCode] }, Except.ok "BAD CODE!") := by
    simp only [handlerInner]
    rw [if_neg h1, if_neg h2]
    rfl
  refine ⟨key, ?_, ?_, ?_, ?_⟩ <;> rw [key] <;> rfl

/-- C6, witness at a concrete unrecognized code. -/
theorem bad_code_no_remote_calls_witness :
    handlerInner (some cfgW) (some "code=zzzz") 10 "Monday" envOk 5 =
      ({ initW with logs := [logBadCode] }, Except.ok "BAD CODE!") ∧
    (handlerInner (some cfgW) (some "code=zzzz") 10 "Monday" envOk 5).1.calls = [] ∧
    (handlerInner (some cfgW) (some "code=zzzz") 10 "Monday" envOk 5).1.nLogin = 0 ∧
    (handlerInner (some cfgW) (some "code=zzzz") 10 "Monday" envOk 5).1.nDev = 0 ∧
    (handlerInner (some cfgW) (some "code=zzzz") 10 "Monday" envOk 5).1.nPut = 0 :=
  bad_code_no_remote_calls cfgW "code=zzzz" 10 "Monday" envOk 5 (by decide) (by decide)

/-- C7: for the family code (distinct from the cleaner code, checked
first), the handler invokes `check_door_state` then `toggle_door` for
every hour and every weekday. -/
theorem family_code_always_toggles (c : Config) (b : String) (hour : Nat) (wd : String)
    (env : Env) (fuel : Nat)
    (hfam : extractCode b = c.familyCode) (hnc : extractCode b ≠ c.cleanerCode) :
    handlerInner (some c) (some b) hour wd env fuel =
      (match check_door_state env fuel initW with
       | (w1, Except.error e) => (w1, Except.error e)
       | (w1, Except.ok _) =>
         match toggle_door env fuel w1 with
         | (w2, Except.error e) => (w2, Except.error e)
         | (w2, Except.ok _) =>
           ({ w2 with logs := w2.logs ++ [logFamilyUsed] }, Except.ok "OK")) := by
  simp only [handlerInner]
  rw [if_neg hnc, if_pos hfam]

/-- C7, witness at a concrete off-hours input (3 UTC, a Monday). -/
theorem family_code_always_toggles_witness :
    extractCode "code=fam" = cfgW.familyCode ∧
    handlerInner (some cfgW) (some "code=fam") 3 "Monday" envOk 5 =
      (match check_door_state envOk 5 initW with
       | (w1, Except.error e) => (w1, Except.error e)
       | (w1, Except.ok _) =>
         match toggle_door envOk 5 w1 with
         | (w2, Except.error e) => (w2, Except.error e)
         | (w2, Except.ok _) =>
           ({ w2 with logs := w2.logs ++ [logFamilyUsed] }, Except.ok "OK")) :=
  ⟨by decide,
   family_code_always_toggles cfgW "code=fam" 3 "Monday" envOk 5 (by decide) (by decide)⟩

/-- C8: after a successful state check, `toggle_door` issues exactly
one put request, whose target follows the spec toggle table — close on
`Open`/`Opening`, open on `Closed`/`Closing`, close otherwise — and in
the `Unknown` case the warning is logged. -/
theorem toggle_command_table (env : Env) (fuel : Nat) (w w1 : W)
    (hchk : getOpenerW env fuel w = (w1, Except.ok ()))
    (htok : ¬ w1.door.securityToken = none)
    (hput : errStatus (env.putResp w1.nPut).status = false) :
    (toggle_door env fuel w).2 = Except.ok () ∧
    (toggle_door env fuel w).1.calls =
      w1.calls ++ [Req.putAttr (specToggleTarget (doorStateName w1.door.openerState))] ∧
    (doorStateName w1.door.openerState = "Unknown" →
      logUnknownState ∈ (toggle_door env fuel w).1.logs) := by
  cases fuel with
  | zero => simp [getOpenerW] at hchk
  | succ n =>
    have htog : toggle_door env (n + 1) w =
        (if doorStateName w1.door.openerState = "Open" ∨
            doorStateName w1.door.openerState = "Opening" then
           close_door env (n + 1) w1
         else if doorStateName w1.door.openerState = "Closed" ∨
            doorStateName w1.door.openerState = "Closing" then
           open_door env (n + 1) w1
         else close_door env (n + 1) { w1 with logs := w1.logs ++ [logUnknownState] }) := by
      unfold toggle_door check_door_state
      rw [hchk]
    rw [htog]
    set s := doorStateName w1.door.openerState with hs
    by_cases hA : s = "Open" ∨ s = "Opening"
    · rw [if_pos hA]
      unfold close_door
      rw [setDoorStateW_ok env 0 n w1 htok hput]
      have hv : specToggleTarget s = 0 := by unfold specToggleTarget; rw [if_pos hA]
      refine ⟨rfl, ?_, ?_⟩
      · dsimp only
        rw [hv]
      · intro hU
        rw [hU] at hA
        rcases hA with h | h <;> exact absurd h (by decide)
    · rw [if_neg hA]
      by_cases hB : s = "Closed" ∨ s = "Closing"
      · rw [if_pos hB]
        unfold open_door
        rw [setDoorStateW_ok env 1 n w1 htok hput]
        have hv : specToggleTarget s = 1 := by
          unfold specToggleTarget; rw [if_neg hA, if_pos hB]
        refine ⟨rfl, ?_, ?_⟩
        · dsimp only
          rw [hv]
        · intro hU
          rw [hU] at hB
          rcases hB with h | h <;> exact absurd h (by decide)
      · rw [if_neg hB]
        unfold close_door
        rw [setDoorStateW_ok env 0 n { w1 with logs := w1.logs ++ [logUnknownState] } htok hput]
        have hv : specToggleTarget s = 0 := by
          unfold specToggleTarget; rw [if_neg hA, if_neg hB]
        refine ⟨rfl, ?_, ?_⟩
        · dsimp only
          rw [hv]
        · intro _
          simp

/-- C8, witness with observed state `Closed`: exactly one put with
target `1` (open). -/
theorem toggle_command_table_witness :
    (toggle_door envOk 5 wTok).2 = Except.ok () ∧
    (toggle_door envOk 5 wTok).1.calls =
      w1W.calls ++ [Req.putAttr (specToggleTarget (doorStateName w1W.door.openerState))] ∧
    (doorStateName w1W.door.openerState = "Unknown" →
      logUnknownState ∈ (toggle_door envOk 5 wTok).1.logs) :=
  toggle_command_table envOk 5 wTok w1W rfl (by decide) (by decide)

/-- C9: whenever the handler body ends in any exception, the wrapped
handler returns the fixed generic internal-error response with the
failure logged, so no exception escapes the invocation boundary. -/
theorem handler_catches_all (cfg : Option Config) (body : Option String) (hour : Nat)
    (wd : String) (env : Env) (fuel : Nat) (e : PyExc)
    (h : (handlerInner cfg body hour wd env fuel).2 = Except.error e) :
    handler cfg body hour wd env fuel =
      ({ (handlerInner cfg body hour wd env fuel).1 with
          logs := (handlerInner cfg body hour wd env fuel).1.logs ++ [logInternal] },
       "Internal error") := by
  unfold handler
  rcases hI : handlerInner cfg body hour wd env fuel with ⟨w, r⟩
  rw [hI] at h
  cases r with
  | ok s => exact Except.noConfusion h
  | error e2 => rfl

/-- C9, witness: a failing secret retrieval is converted to the
internal-error response. -/
theorem handler_catches_all_witness :
    (handlerInner none (some "x") 0 "Monday" envOk 0).2 = Except.error PyExc.configError ∧
    handler none (some "x") 0 "Monday" envOk 0 =
      ({ (handlerInner none (some "x") 0 "Monday" envOk 0).1 with
          logs := (handlerInner none (some "x") 0 "Monday" envOk 0).1.logs ++ [logInternal] },
       "Internal error") :=
  ⟨rfl, handler_catches_all none (some "x") 0 "Monday" envOk 0 PyExc.configError rfl⟩

/-- C10: the code is extracted by dropping the first five characters
of the body without checking them: a body shorter than five characters
yields the empty code, and any body whose tail after position five
equals the family code is authorized even when it does not start with
the `code=` prefix. -/
theorem code_extraction_unchecked :
    (∀ b : String, b.length < 5 → extractCode b = "") ∧
    (∀ (c : Config) (b : String) (hour : Nat) (wd : String) (env : Env) (fuel : Nat),
      b.data.take 5 ≠ ("code=").data →
      extractCode b = c.familyCode → extractCode b ≠ c.cleanerCode →
      handlerInner (some c) (some b) hour wd env fuel =
        (match check_door_state env fuel initW with
         | (w1, Except.error e) => (w1, Except.error e)
         | (w1, Except.ok _) =>
           match toggle_door env fuel w1 with
           | (w2, Except.error e) => (w2, Except.error e)
           | (w2, Except.ok _) =>
             ({ w2 with logs := w2.logs ++ [logFamilyUsed] }, Except.ok "OK"))) := by
  constructor
  · intro b hb
    unfold extractCode
    rw [List.drop_eq_nil_of_le (Nat.le_of_lt hb)]
  · intro c b hour wd env fuel hpre hfam hnc
    simp only [handlerInner]
    rw [if_neg hnc, if_pos hfam]

/-- C10, witness: a two-character body yields the empty code, and a
body not starting with `code=` but ending in the family code after
position five is authorized. -/
theorem code_extraction_unchecked_witness :
    ("AB".length < 5 ∧ extractCode "AB" = "") ∧
    (("XXXXXfam").data.take 5 ≠ ("code=").data ∧
     handlerInner (some cfgW) (some "XXXXXfam") 12 "Friday" envOk 5 =
       (match check_door_state envOk 5 initW with
        | (w1, Except.error e) => (w1, Except.error e)
        | (w1, Except.ok _) =>
          match toggle_door envOk 5 w1 with
          | (w2, Except.error e) => (w2, Except.error e)
          | (w2, Except.ok _) =>
            ({ w2 with logs := w2.logs ++ [logFamilyUsed] }, Except.ok "OK"))) :=
  ⟨⟨by decide, code_extraction_unchecked.1 "AB" (by decide)⟩,
   ⟨by decide,
    code_extraction_unchecked.2 cfgW "XXXXXfam" 12 "Friday" envOk 5
      (by decide) (by decide) (by decide)⟩⟩

end DoorLambda
